import Mathlib

/-!
Shallow embedding of `granulate_utils/metadata/databricks_client.py`.

The Python module discovers Databricks cluster metadata by reading a local
properties file, polling the SparkUI web API, and extracting/normalizing a
small set of string properties.  Pure string and dictionary manipulation is
embedded directly; I/O boundaries (the file contents, the HTTP responses,
the JSON parser) become explicit inputs of the embedded functions, and
Python exceptions become `Except` values.
-/

namespace DatabricksClient

/-! ## Python dictionaries as association lists

A Python `dict` built by successive assignments is modelled as an
association list with unique keys: `dinsert` overwrites the value of an
existing key in place and appends fresh keys at the end, exactly like a
Python dict assignment. `dget` is `dict.get`. -/

abbrev Dict := List (String × String)

def dget : Dict → String → Option String
  | [], _ => none
  | kv :: rest, k => if kv.1 = k then some kv.2 else dget rest k

def dhas (d : Dict) (k : String) : Bool :=
  d.any (fun kv => kv.1 == k)

def dinsert (d : Dict) (k v : String) : Dict :=
  if dhas d k then d.map (fun kv => if kv.1 = k then (k, v) else kv)
  else d ++ [(k, v)]

/-- Python `dict(pairs)`: left-to-right insertion, later values win. -/
def pyDict (l : List (String × String)) : Dict :=
  l.foldl (fun acc kv => dinsert acc kv.1 kv.2) []

def dkeys (d : Dict) : List String := d.map Prod.fst

/-- Left-biased choice on optional values (`Option.or`). -/
def oor : Option String → Option String → Option String
  | some v, _ => some v
  | none, b => b

/-- Lookup of the LAST binding of a key in a raw pair list (the value that
survives Python dict construction). -/
def lookupLast (l : List (String × String)) (k : String) : Option String :=
  dget l.reverse k

/-! ## Constants of the source module -/

def HOST_KEY_NAME : String := "*.sink.ganglia.host"

def CLUSTER_USAGE_ALL_TAGS_PROP : String :=
  "spark.databricks.clusterUsageTags.clusterAllTags"

def CLUSTER_USAGE_CLUSTER_NAME_PROP : String :=
  "spark.databricks.clusterUsageTags.clusterName"

def CLUSTER_USAGE_RELEVANT_TAGS_PROPS : List String :=
  ["spark.databricks.clusterUsageTags.cloudProvider",
   "spark.databricks.clusterUsageTags.clusterAvailability",
   "spark.databricks.clusterUsageTags.clusterCreator",
   "spark.databricks.clusterUsageTags.clusterFirstOnDemand",
   "spark.databricks.clusterUsageTags.clusterMaxWorkers",
   "spark.databricks.clusterUsageTags.clusterMinWorkers",
   "spark.databricks.clusterUsageTags.clusterNodeType",
   "spark.databricks.clusterUsageTags.clusterScalingType",
   "spark.databricks.clusterUsageTags.clusterSizeType",
   "spark.databricks.clusterUsageTags.clusterSku",
   "spark.databricks.clusterUsageTags.clusterSpotBidMaxPrice",
   "spark.databricks.clusterUsageTags.clusterTargetWorkers",
   "spark.databricks.clusterUsageTags.clusterWorkers",
   "spark.databricks.clusterUsageTags.driverNodeType"]

def DATABRICKS_REDACTED_STR : String := "redacted"

def JOB_NAME_KEY : String := "RunName"

def CLUSTER_NAME_KEY : String := "ClusterName"

def DEFAULT_WEBUI_PORT : Nat := 40001

def DATABRICKS_JOBNAME_TIMEOUT_S : Nat := 2 * 60

def RETRY_INTERVAL_S : Nat := 1

def REQUEST_TIMEOUT : Nat := 5

/-- Marker text the SparkUI serves while still initializing (checked with
Python `in` against the response body). -/
def SPARK_STARTING_MSG : String :=
  "Spark is starting up. Please wait a while until it\x27s ready"

/-! ## Python string primitives

`strContains hay needle` is Python `needle in hay` (substring containment);
`splitLines` is `str.splitlines` for newline-delimited text; `splitFirstEq`
is `line.split("=", 1)`; `replaceSpaces` is `str.replace(" ", "-")` (a
single-character pattern, hence a character map); `pyLower` is ASCII
`str.lower`. -/

def listStarts : List Char → List Char → Bool
  | [], _ => true
  | _ :: _, [] => false
  | a :: as, b :: bs => a == b && listStarts as bs

def strContainsAux (needle : List Char) : List Char → Bool
  | [] => listStarts needle []
  | c :: rest => listStarts needle (c :: rest) || strContainsAux needle rest

def strContains (hay needle : String) : Bool :=
  strContainsAux needle.data hay.data

/-- Python `str.splitlines` for Unix newline-delimited text: a line break
ends each line, and a trailing break does not open a final empty line
(`"a\n".splitlines() == ["a"]`, `"".splitlines() == []`,
`"\n".splitlines() == [""]`). -/
def splitLinesAux : List Char → List Char → List String
  | acc, [] => if acc.isEmpty then [] else [String.mk acc.reverse]
  | acc, c :: rest =>
    if c = '\n' then String.mk acc.reverse :: splitLinesAux [] rest
    else splitLinesAux (c :: acc) rest

def splitLines (s : String) : List String :=
  splitLinesAux [] s.data

def splitFirstEq : List Char → Option (List Char × List Char)
  | [] => none
  | c :: rest =>
    if c = '=' then some ([], rest)
    else (splitFirstEq rest).map (fun p => (c :: p.1, p.2))

/-- `dict([line.split("=", 1) for line in lines])` succeeds only when every
line contains an `=` (a 1-element list makes `dict` raise `ValueError`). -/
def parsePairs : List String → Option (List (String × String))
  | [] => some []
  | ln :: rest =>
    match splitFirstEq ln.data, parsePairs rest with
    | some p, some ps => some ((String.mk p.1, String.mk p.2) :: ps)
    | _, _ => none

def replaceSpaces (s : String) : String :=
  String.mk (s.data.map (fun c => if c = ' ' then '-' else c))

def pyLower (s : String) : String :=
  String.mk (s.data.map Char.toLower)

/-- Match the regex `run-\d+-` at the head of the character list and return
the remainder after the match.  `\d+` is greedy, but since only the maximal
digit run can be followed by the required `-`, taking the longest run is
exact. -/
def matchRunIdAt (l : List Char) : Option (List Char) :=
  match l with
  | 'r' :: 'u' :: 'n' :: '-' :: rest =>
    let ds := rest.takeWhile Char.isDigit
    let more := rest.dropWhile Char.isDigit
    if ds.isEmpty then none
    else
      match more with
      | '-' :: after => some after
      | _ => none
  | _ => none

/-- `re.sub(RUN_ID_REGEX, "", s)`: delete every leftmost non-overlapping
match of `run-\d+-`, scanning left to right.  Each step consumes at least
one character, so `s.length` fuel is exact. -/
def stripRunIdAux : Nat → List Char → List Char
  | 0, l => l
  | _ + 1, [] => []
  | fuel + 1, c :: cs =>
    match matchRunIdAt (c :: cs) with
    | some rest => stripRunIdAux fuel rest
    | none => c :: stripRunIdAux fuel cs

def stripRunId (s : String) : String :=
  String.mk (stripRunIdAux s.data.length s.data)

/-! ## `DBXWebUIEnvWrapper.get_webui_address`

The file contents are the explicit input; `Except.error` is the raised
`DatabricksJobNameDiscoverException` (its payload carries the raw
contents), `Except.ok none` is the not-ready `return None` taken when the
lookup fails with `KeyError` on exactly the host key. -/

def get_webui_address (properties : String) : Except String (Option String) :=
  match parsePairs (splitLines properties) with
  | none => .error ("Failed to get Databricks webui address properties=" ++ properties)
  | some ps =>
    match dget (pyDict ps) HOST_KEY_NAME with
    | none => .ok none
    | some host => .ok (some (host ++ ":" ++ Nat.repr DEFAULT_WEBUI_PORT))

/-! ## `_request_get` and `_spark_apps_json`

The network outcome of `requests.get` is the explicit input: either a
connection-level failure (`ConnectionError`/`Timeout`) or a response with a
status code, a body text, and the result of `.json()` (`none` when parsing
the body raises).  `raise_for_status` raises `HTTPError` for 4xx/5xx, and
both `HTTPError` and connection failures are `RequestException`s, which is
what `_spark_apps_json` catches. -/

structure HttpResponse where
  statusCode : Nat
  text : String
  jsonBody : Option (List String)
deriving DecidableEq, Repr

inductive GetOutcome where
  | connFailure
  | response (r : HttpResponse)
deriving DecidableEq, Repr

inductive ReqException where
  | connectionError
  | httpError (status : Nat)
deriving DecidableEq, Repr

def request_get : GetOutcome → Except ReqException HttpResponse
  | .connFailure => .error .connectionError
  | .response r =>
    if 400 ≤ r.statusCode ∧ r.statusCode < 600 then .error (.httpError r.statusCode)
    else .ok r

def spark_apps_json (g : GetOutcome) : Except String (Option (List String)) :=
  match request_get g with
  | .error _ => .ok none
  | .ok resp =>
    match resp.jsonBody with
    | some apps => .ok (some apps)
    | none =>
      if strContains resp.text SPARK_STARTING_MSG then .ok none
      else .error ("Failed to parse apps url response, query response.text=" ++ resp.text)

/-! ## `_cluster_all_tags_metadata`, lines 189-220

Input: the `spark_properties` pair list (already extracted from the
application environment JSON) and the JSON parser for the all-tags value
(`json.loads` followed by the `key`/`value` field accesses; `none` models a
parse failure, which the code turns into a terminal
`DatabricksJobNameDiscoverException`). -/

def clusterNameFallback (P : Dict) : Except String Dict :=
  match dget P CLUSTER_USAGE_CLUSTER_NAME_PROP with
  | some v => .ok (dinsert [] CLUSTER_NAME_KEY v)
  | none =>
    .error ("Failed to extract " ++ CLUSTER_USAGE_ALL_TAGS_PROP ++ " or " ++
      CLUSTER_USAGE_CLUSTER_NAME_PROP ++ " from spark_properties")

def extractNameTags (parse : String → Option (List (String × String))) (P : Dict) :
    Except String Dict :=
  match dget P CLUSTER_USAGE_ALL_TAGS_PROP with
  | some v =>
    if strContains v DATABRICKS_REDACTED_STR then clusterNameFallback P
    else
      match parse v with
      | none => .error ("Failed to parse " ++ v)
      | some tags => .ok (pyDict tags)
  | none => clusterNameFallback P

/-- The `for key in spark_properties` loop: since `spark_properties` is a
dict, its keys are unique and `spark_properties[key]` is the entry value. -/
def addWhitelist : Dict → Dict → Dict
  | result, [] => result
  | result, (k, v) :: rest =>
    addWhitelist
      (if CLUSTER_USAGE_RELEVANT_TAGS_PROPS.contains k &&
          !strContains v DATABRICKS_REDACTED_STR
       then dinsert result k v else result) rest

/-- Extraction stage only (lines 189-218, before `_apply_pattern`). -/
def extractTags (parse : String → Option (List (String × String)))
    (spark_properties : List (String × String)) : Except String Dict :=
  (extractNameTags parse (pyDict spark_properties)).map
    (fun r => addWhitelist r (pyDict spark_properties))

/-- First statement pair of `_apply_pattern`: if `JOB_NAME_KEY` is present,
overwrite its value with spaces-to-dashes + lowercase. -/
def applyJobPattern (metadata : Dict) : Dict :=
  match dget metadata JOB_NAME_KEY with
  | some v => dinsert metadata JOB_NAME_KEY (pyLower (replaceSpaces v))
  | none => metadata

/-- Second statement group of `_apply_pattern`: if `CLUSTER_NAME_KEY` is
present, strip `run-<digits>-` matches, then spaces-to-dashes + lowercase. -/
def applyClusterPattern (metadata : Dict) : Dict :=
  match dget metadata CLUSTER_NAME_KEY with
  | some v => dinsert metadata CLUSTER_NAME_KEY (pyLower (replaceSpaces (stripRunId v)))
  | none => metadata

/-- Python `_apply_pattern`: normalize the `RunName` value (spaces to
dashes, lowercase) and the `ClusterName` value (strip `run-<digits>-`
matches, spaces to dashes, lowercase). -/
def apply_pattern (metadata : Dict) : Dict :=
  applyClusterPattern (applyJobPattern metadata)

/-- Full `_cluster_all_tags_metadata` value for a non-`None` run: extraction
followed by `_apply_pattern` on the successful result. -/
def cluster_all_tags_metadata (parse : String → Option (List (String × String)))
    (spark_properties : List (String × String)) : Except String Dict :=
  (extractTags parse spark_properties).map apply_pattern

/-- Condition under which the whitelist loop writes key `k`: `k` is one of
the ~14 relevant tag properties, is present in `spark_properties`, and its
value does not contain the redaction marker. -/
def wlHit (P : Dict) (k : String) : Bool :=
  CLUSTER_USAGE_RELEVANT_TAGS_PROPS.contains k &&
    match dget P k with
    | some w => !strContains w DATABRICKS_REDACTED_STR
    | none => false

/-! ## `get_name_from_metadata`

`if job_name := metadata.get(JOB_NAME_KEY):` tests Python truthiness: the
walrus value must be non-`None` AND non-empty. -/

def get_name_from_metadata (metadata : Dict) : Option String :=
  match dget metadata JOB_NAME_KEY with
  | some j =>
    if j = "" then
      match dget metadata CLUSTER_NAME_KEY with
      | some c => if c = "" then none else some c
      | none => none
    else some ("job-" ++ j)
  | none =>
    match dget metadata CLUSTER_NAME_KEY with
    | some c => if c = "" then none else some c
    | none => none

/-! ## `extract_relevant_metadata`, the retry loop

The state of the world at each attempt is abstracted into `chain i`, the
outcome of the i-th call of the per-poll chain `_cluster_all_tags_metadata`
(`.error` = a raised exception, `.ok none` = the not-ready `None`,
`.ok (some d)` = a returned dict), and `dur i`, the seconds the i-th call
itself consumes.  Time advances by `dur i` per attempt and by
`RETRY_INTERVAL_S` per `time.sleep`; the `while` guard compares elapsed
time against the 120 s deadline.  `if cluster_all_props:` tests Python
truthiness, so an empty dict retries like `None`.  With
`enable_retries = False` the loop body still runs once in full (including
the sleep on a falsy outcome) before `break`. -/

inductive AttemptExn where
  | discover (msg : String)
  | generic
deriving DecidableEq, Repr

structure RunStats where
  result : Option Dict
  attempts : Nat
  sleeps : Nat
  elapsed : Nat
deriving DecidableEq, Repr

def truthyDict : Option Dict → Bool
  | none => false
  | some d => !d.isEmpty

def runLoop (chain : Nat → Except AttemptExn (Option Dict)) (dur : Nat → Nat)
    (enable_retries : Bool) : Nat → Nat → Nat → Nat → RunStats
  | 0, i, elapsed, sleeps => ⟨none, i, sleeps, elapsed⟩
  | fuel + 1, i, elapsed, sleeps =>
    if elapsed < DATABRICKS_JOBNAME_TIMEOUT_S then
      match chain i with
      | .error _ => ⟨none, i + 1, sleeps, elapsed + dur i⟩
      | .ok r =>
        if truthyDict r then ⟨r, i + 1, sleeps, elapsed + dur i⟩
        else
          if enable_retries then
            runLoop chain dur enable_retries fuel (i + 1)
              (elapsed + dur i + RETRY_INTERVAL_S) (sleeps + 1)
          else ⟨none, i + 1, sleeps + 1, elapsed + dur i + RETRY_INTERVAL_S⟩
    else ⟨none, i, sleeps, elapsed⟩

/-- Each loop iteration advances elapsed time by at least one second, so
`DATABRICKS_JOBNAME_TIMEOUT_S + 1` fuel can never be exhausted while the
`while` guard still holds. -/
def extract_relevant_metadata (chain : Nat → Except AttemptExn (Option Dict))
    (dur : Nat → Nat) (enable_retries : Bool) : RunStats :=
  runLoop chain dur enable_retries (DATABRICKS_JOBNAME_TIMEOUT_S + 1) 0 0 0

/-- No space and no uppercase ASCII letter anywhere in the string. -/
def nameSafeB (s : String) : Bool :=
  s.data.all (fun c => !(c == ' ') && !c.isUpper)

@[simp] theorem oor_some (v : String) (b : Option String) : oor (some v) b = some v := rfl

@[simp] theorem oor_none (b : Option String) : oor none b = b := rfl

@[simp] theorem dget_nil (k : String) : dget [] k = none := rfl

@[simp] theorem dget_cons (kv : String × String) (rest : Dict) (k : String) :
    dget (kv :: rest) k = if kv.1 = k then some kv.2 else dget rest k := rfl

theorem dget_append (a b : Dict) (k : String) :
    dget (a ++ b) k = oor (dget a k) (dget b k) := by
  induction a with
  | nil => simp
  | cons kv rest ih =>
    by_cases h : kv.1 = k <;> simp [dget, h, ih]

@[simp] theorem dhas_cons (kv : String × String) (rest : Dict) (k : String) :
    dhas (kv :: rest) k = (kv.1 == k || dhas rest k) := rfl

theorem dhas_eq_isSome (d : Dict) (k : String) :
    dhas d k = (dget d k).isSome := by
  induction d with
  | nil => rfl
  | cons kv rest ih =>
    by_cases h : kv.1 = k
    · simp [dhas_cons, dget, h]
    · have hb : (kv.1 == k) = false := by simp [h]
      rw [dhas_cons, dget_cons, if_neg h, hb, Bool.false_or, ih]

theorem mem_dkeys (d : Dict) (k : String) : k ∈ dkeys d ↔ dhas d k = true := by
  induction d with
  | nil => simp [dkeys, dhas]
  | cons kv rest ih =>
    show k ∈ kv.1 :: dkeys rest ↔ (kv.1 == k || dhas rest k) = true
    rw [List.mem_cons, Bool.or_eq_true, beq_iff_eq, ih]
    exact or_congr_left eq_comm

theorem dget_update (d : Dict) (k v k' : String) :
    dget (d.map (fun kv => if kv.1 = k then (k, v) else kv)) k' =
      if k' = k then (dget d k).map (fun _ => v) else dget d k' := by
  induction d with
  | nil => by_cases h : k' = k <;> simp [h]
  | cons kv rest ih =>
    simp only [List.map_cons, dget_cons]
    by_cases h1 : kv.1 = k
    · by_cases h2 : k' = k
      · subst h2
        simp [h1]
      · have h2' : ¬k = k' := fun hc => h2 hc.symm
        simp [h1, h2, h2', ih]
    · by_cases h2 : k' = k
      · subst h2
        simp [h1, ih]
      · simp [h1, h2, ih]

theorem dget_dinsert_self (d : Dict) (k v : String) :
    dget (dinsert d k v) k = some v := by
  unfold dinsert
  by_cases h : dhas d k = true
  · rw [if_pos h, dget_update, if_pos rfl]
    rw [dhas_eq_isSome] at h
    cases hd : dget d k with
    | none => rw [hd] at h; simp at h
    | some w => simp
  · rw [if_neg h, dget_append]
    have hd : dget d k = none := by
      rw [dhas_eq_isSome] at h
      cases hd : dget d k with
      | none => rfl
      | some w => rw [hd] at h; simp at h
    simp [hd, dget]

theorem dget_dinsert_ne (d : Dict) (k v k' : String) (h : k' ≠ k) :
    dget (dinsert d k v) k' = dget d k' := by
  unfold dinsert
  by_cases hh : dhas d k = true
  · rw [if_pos hh, dget_update, if_neg h]
  · rw [if_neg hh, dget_append]
    cases hd : dget d k' with
    | none =>
      have h2 : ¬k = k' := fun hc => h hc.symm
      simp [dget, h2]
    | some w => simp

theorem dget_eq_none_of_not_mem (d : Dict) (k : String) (h : k ∉ dkeys d) :
    dget d k = none := by
  have h2 : ¬dhas d k = true := fun hc => h ((mem_dkeys d k).mpr hc)
  rw [dhas_eq_isSome] at h2
  cases hd : dget d k with
  | none => rfl
  | some w => rw [hd] at h2; simp at h2

theorem dkeys_dinsert (d : Dict) (k v : String) :
    dkeys (dinsert d k v) = if dhas d k then dkeys d else dkeys d ++ [k] := by
  unfold dinsert
  by_cases hh : dhas d k = true
  · rw [if_pos hh, if_pos hh]
    unfold dkeys
    rw [List.map_map]
    apply List.map_congr_left
    intro kv _
    by_cases h1 : kv.1 = k <;> simp [h1]
  · rw [if_neg hh, if_neg hh]
    simp [dkeys]

theorem nodup_dinsert (d : Dict) (k v : String) (h : (dkeys d).Nodup) :
    (dkeys (dinsert d k v)).Nodup := by
  rw [dkeys_dinsert]
  by_cases hh : dhas d k = true
  · simpa [hh] using h
  · have hk : k ∉ dkeys d := fun hc => hh ((mem_dkeys d k).mp hc)
    rw [if_neg hh]
    simp only [List.nodup_append]
    exact ⟨h, List.nodup_singleton k, by simpa using hk⟩

theorem nodup_pyDict (l : List (String × String)) : (dkeys (pyDict l)).Nodup := by
  have main : ∀ (l : List (String × String)) (acc : Dict),
      (dkeys acc).Nodup → (dkeys (l.foldl (fun a kv => dinsert a kv.1 kv.2) acc)).Nodup := by
    intro l
    induction l with
    | nil => intro acc h; exact h
    | cons kv rest ih =>
      intro acc h
      exact ih _ (nodup_dinsert acc kv.1 kv.2 h)
  exact main l [] (by simp [dkeys])

theorem lookupLast_cons (kv : String × String) (rest : List (String × String)) (k : String) :
    lookupLast (kv :: rest) k =
      oor (lookupLast rest k) (if kv.1 = k then some kv.2 else none) := by
  simp only [lookupLast, List.reverse_cons]
  rw [dget_append]
  cases dget rest.reverse k <;> simp [dget]

theorem dget_pyDict (l : List (String × String)) (k : String) :
    dget (pyDict l) k = lookupLast l k := by
  have main : ∀ (l : List (String × String)) (acc : Dict),
      dget (l.foldl (fun a kv => dinsert a kv.1 kv.2) acc) k =
        oor (lookupLast l k) (dget acc k) := by
    intro l
    induction l with
    | nil => intro acc; simp [lookupLast]
    | cons kv rest ih =>
      intro acc
      simp only [List.foldl_cons]
      rw [ih, lookupLast_cons]
      cases hr : lookupLast rest k with
      | some v => simp
      | none =>
        simp only [oor_none]
        by_cases hk : kv.1 = k
        · rw [hk, dget_dinsert_self]
          simp [hk]
        · rw [dget_dinsert_ne _ _ _ _ (fun hc => hk hc.symm)]
          simp [hk]
  rw [pyDict, main l []]
  cases hr : lookupLast l k <;> simp

/-! ## Helper lemmas -/

theorem timeout_eq : DATABRICKS_JOBNAME_TIMEOUT_S = 120 := rfl

theorem interval_eq : RETRY_INTERVAL_S = 1 := rfl

theorem charOfNat_toNat (n : Nat) (h : n.isValidChar) : (Char.ofNat n).toNat = n := by
  unfold Char.ofNat
  rw [dif_pos h]
  rfl

theorem toLower_shift (n : Nat) (h1 : 65 ≤ n) (h2 : n ≤ 90) :
    ((Char.ofNat (n + 32)) == ' ') = false ∧ (Char.ofNat (n + 32)).isUpper = false := by
  have hv : (n + 32).isValidChar := Or.inl (by omega)
  have ht : (Char.ofNat (n + 32)).toNat = n + 32 := charOfNat_toNat _ hv
  constructor
  · rw [beq_eq_false_iff_ne]
    intro hc
    rw [hc] at ht
    have : (' ' : Char).toNat = 32 := rfl
    omega
  · simp only [Char.isUpper]
    rw [Bool.and_eq_false_iff]
    right
    simp only [decide_eq_false_iff_not]
    intro hle
    have hle2 : (Char.ofNat (n + 32)).val.toNat ≤ (90 : UInt32).toNat := hle
    have h90 : (90 : UInt32).toNat = 90 := rfl
    have hvv : (Char.ofNat (n + 32)).val.toNat = (Char.ofNat (n + 32)).toNat := rfl
    omega

theorem toLower_not_space_not_upper (c : Char) (hc : c ≠ ' ') :
    (Char.toLower c == ' ') = false ∧ (Char.toLower c).isUpper = false := by
  unfold Char.toLower
  by_cases h : c.toNat ≥ 65 ∧ c.toNat ≤ 90
  · rw [if_pos h]
    exact toLower_shift c.toNat h.1 h.2
  · rw [if_neg h]
    constructor
    · exact beq_eq_false_iff_ne.mpr hc
    · simp only [Char.isUpper]
      rw [Bool.and_eq_false_iff]
      push_neg at h
      by_cases h65 : c.toNat ≥ 65
      · right
        simp only [decide_eq_false_iff_not]
        intro hle
        have hle2 : c.val.toNat ≤ (90 : UInt32).toNat := hle
        have h90 : (90 : UInt32).toNat = 90 := rfl
        have hvv : c.val.toNat = c.toNat := rfl
        have := h h65
        omega
      · left
        simp only [decide_eq_false_iff_not]
        intro hge
        have hge2 : (65 : UInt32).toNat ≤ c.val.toNat := hge
        have h65n : (65 : UInt32).toNat = 65 := rfl
        have hvv : c.val.toNat = c.toNat := rfl
        omega

/-- The composite normalization (spaces to dashes, then lowercase) produces
only space-free, uppercase-free strings, whatever the input. -/
theorem nameSafe_norm (s : String) : nameSafeB (pyLower (replaceSpaces s)) = true := by
  show ((s.data.map (fun c => if c = ' ' then '-' else c)).map Char.toLower).all
      (fun c => !(c == ' ') && !c.isUpper) = true
  rw [List.all_eq_true]
  intro c hc
  rw [List.map_map] at hc
  rcases List.mem_map.mp hc with ⟨c0, _, rfl⟩
  have hne : (if c0 = ' ' then '-' else c0) ≠ ' ' := by
    by_cases h0 : c0 = ' '
    · rw [if_pos h0]; decide
    · rw [if_neg h0]; exact h0
  obtain ⟨h1, h2⟩ := toLower_not_space_not_upper _ hne
  show (!(Char.toLower (if c0 = ' ' then '-' else c0) == ' ') &&
      !(Char.toLower (if c0 = ' ' then '-' else c0)).isUpper) = true
  rw [h1, h2]
  rfl

theorem dget_singleton (k v k' : String) :
    dget (dinsert [] k v) k' = if k' = k then some v else none := by
  show dget [(k, v)] k' = _
  by_cases h : k = k'
  · subst h; simp [dget]
  · have h2 : ¬k' = k := fun hc => h hc.symm
    simp [dget, h, h2]

theorem dget_applyJob_self (m : Dict) :
    dget (applyJobPattern m) JOB_NAME_KEY =
      (dget m JOB_NAME_KEY).map (fun v => pyLower (replaceSpaces v)) := by
  unfold applyJobPattern
  cases hj : dget m JOB_NAME_KEY with
  | none => simp [hj]
  | some v => simp [dget_dinsert_self]

theorem dget_applyJob_other (m : Dict) (k : String) (hk : k ≠ JOB_NAME_KEY) :
    dget (applyJobPattern m) k = dget m k := by
  unfold applyJobPattern
  cases hj : dget m JOB_NAME_KEY with
  | none => rfl
  | some v => exact dget_dinsert_ne m JOB_NAME_KEY _ k hk

theorem dget_applyCluster_self (m : Dict) :
    dget (applyClusterPattern m) CLUSTER_NAME_KEY =
      (dget m CLUSTER_NAME_KEY).map (fun v => pyLower (replaceSpaces (stripRunId v))) := by
  unfold applyClusterPattern
  cases hj : dget m CLUSTER_NAME_KEY with
  | none => simp [hj]
  | some v => simp [dget_dinsert_self]

theorem dget_applyCluster_other (m : Dict) (k : String) (hk : k ≠ CLUSTER_NAME_KEY) :
    dget (applyClusterPattern m) k = dget m k := by
  unfold applyClusterPattern
  cases hj : dget m CLUSTER_NAME_KEY with
  | none => rfl
  | some v => exact dget_dinsert_ne m CLUSTER_NAME_KEY _ k hk

theorem job_ne_cluster : JOB_NAME_KEY ≠ CLUSTER_NAME_KEY := by decide

theorem dget_apply_pattern_job (m : Dict) :
    dget (apply_pattern m) JOB_NAME_KEY =
      (dget m JOB_NAME_KEY).map (fun v => pyLower (replaceSpaces v)) := by
  unfold apply_pattern
  rw [dget_applyCluster_other _ _ job_ne_cluster, dget_applyJob_self]

theorem dget_apply_pattern_cluster (m : Dict) :
    dget (apply_pattern m) CLUSTER_NAME_KEY =
      (dget m CLUSTER_NAME_KEY).map (fun v => pyLower (replaceSpaces (stripRunId v))) := by
  unfold apply_pattern
  rw [dget_applyCluster_self, dget_applyJob_other _ _ (fun hc => job_ne_cluster hc.symm)]

/-- Get-level description of the whitelist-copy loop, for a dict-shaped
(unique-keyed) `spark_properties`. -/
theorem dget_addWhitelist :
    ∀ (P : Dict), (dkeys P).Nodup → ∀ (base : Dict) (k : String),
      dget (addWhitelist base P) k =
        if wlHit P k then dget P k else dget base k := by
  intro P
  induction P with
  | nil => intro _ base k; simp [addWhitelist, wlHit]
  | cons kv rest ih =>
    intro hnd base k
    obtain ⟨k1, v1⟩ := kv
    have hnd2 : (k1 ∉ dkeys rest) ∧ (dkeys rest).Nodup := by
      have : dkeys ((k1, v1) :: rest) = k1 :: dkeys rest := rfl
      rw [this] at hnd
      exact List.nodup_cons.mp hnd
    show dget (addWhitelist
      (if CLUSTER_USAGE_RELEVANT_TAGS_PROPS.contains k1 &&
          !strContains v1 DATABRICKS_REDACTED_STR
       then dinsert base k1 v1 else base) rest) k = _
    rw [ih hnd2.2]
    have hrest_none : dget rest k1 = none := dget_eq_none_of_not_mem rest k1 hnd2.1
    by_cases hk : k1 = k
    · subst hk
      have hwr : wlHit rest k1 = false := by
        unfold wlHit
        rw [hrest_none]
        simp
      rw [hwr]
      simp only [Bool.false_eq_true, if_false]
      have hP : dget ((k1, v1) :: rest) k1 = some v1 := by simp [dget]
      have hw : wlHit ((k1, v1) :: rest) k1 =
          (CLUSTER_USAGE_RELEVANT_TAGS_PROPS.contains k1 &&
            !strContains v1 DATABRICKS_REDACTED_STR) := by
        unfold wlHit
        rw [hP]
      rw [hw, hP]
      by_cases hc1 : (CLUSTER_USAGE_RELEVANT_TAGS_PROPS.contains k1 &&
          !strContains v1 DATABRICKS_REDACTED_STR) = true
      · rw [hc1]
        simp only [if_true]
        exact dget_dinsert_self base k1 v1
      · rw [Bool.not_eq_true] at hc1
        rw [hc1]
        simp
    · have hP : dget ((k1, v1) :: rest) k = dget rest k := by
        simp [dget, hk]
      have hw : wlHit ((k1, v1) :: rest) k = wlHit rest k := by
        unfold wlHit
        rw [hP]
      rw [hw, hP]
      have hbase : dget (if CLUSTER_USAGE_RELEVANT_TAGS_PROPS.contains k1 &&
          !strContains v1 DATABRICKS_REDACTED_STR
         then dinsert base k1 v1 else base) k = dget base k := by
        by_cases hc1 : (CLUSTER_USAGE_RELEVANT_TAGS_PROPS.contains k1 &&
            !strContains v1 DATABRICKS_REDACTED_STR) = true
        · rw [if_pos hc1]
          exact dget_dinsert_ne base k1 v1 k (fun hc => hk hc.symm)
        · rw [if_neg hc1]
      rw [hbase]

/-- One-step unfolding of the retry loop. -/
theorem runLoop_succ (chain : Nat → Except AttemptExn (Option Dict)) (dur : Nat → Nat)
    (enable_retries : Bool) (fuel i elapsed sleeps : Nat) :
    runLoop chain dur enable_retries (fuel + 1) i elapsed sleeps =
      (if elapsed < DATABRICKS_JOBNAME_TIMEOUT_S then
        match chain i with
        | .error _ => ⟨none, i + 1, sleeps, elapsed + dur i⟩
        | .ok r =>
          if truthyDict r then ⟨r, i + 1, sleeps, elapsed + dur i⟩
          else
            if enable_retries then
              runLoop chain dur enable_retries fuel (i + 1)
                (elapsed + dur i + RETRY_INTERVAL_S) (sleeps + 1)
            else ⟨none, i + 1, sleeps + 1, elapsed + dur i + RETRY_INTERVAL_S⟩
      else ⟨none, i, sleeps, elapsed⟩) := rfl

/-- If attempts `i, i+1, ..., i+k-1` are not-ready and attempt `i+k` raises
(within the deadline), the loop returns `None`: both exception branches of
the `try` return `None` instead of propagating. -/
theorem runLoop_skips_notReady (chain : Nat → Except AttemptExn (Option Dict))
    (e : AttemptExn) :
    ∀ (k fuel i elapsed sleeps : Nat),
      (∀ j, j < k → chain (i + j) = .ok none) →
      chain (i + k) = .error e →
      elapsed + k < DATABRICKS_JOBNAME_TIMEOUT_S →
      DATABRICKS_JOBNAME_TIMEOUT_S - elapsed < fuel →
      (runLoop chain (fun _ => 0) true fuel i elapsed sleeps).result = none := by
  intro k
  induction k with
  | zero =>
    intro fuel i elapsed sleeps h he hlt hfuel
    cases fuel with
    | zero => rw [timeout_eq] at hfuel; omega
    | succ f =>
      rw [runLoop_succ, if_pos (by omega)]
      rw [Nat.add_zero] at he
      rw [he]
  | succ k ih =>
    intro fuel i elapsed sleeps h he hlt hfuel
    cases fuel with
    | zero => rw [timeout_eq] at hfuel; omega
    | succ f =>
      rw [runLoop_succ, if_pos (by omega)]
      have h0 : chain i = .ok none := by
        have := h 0 (by omega)
        rwa [Nat.add_zero] at this
      rw [h0]
      show (runLoop chain (fun _ => 0) true f (i + 1) (elapsed + 1) (sleeps + 1)).result = none
      apply ih f (i + 1) (elapsed + 1) (sleeps + 1)
      · intro j hj
        have := h (j + 1) (by omega)
        rwa [show i + (j + 1) = i + 1 + j by omega] at this
      · rwa [show i + 1 + k = i + (k + 1) by omega]
      · omega
      · omega

/-- If every attempt is not-ready, the loop performs one attempt and one
sleep per remaining second and stops exactly at the deadline. -/
theorem runLoop_all_notReady (chain : Nat → Except AttemptExn (Option Dict))
    (h : ∀ i, chain i = .ok none) :
    ∀ (fuel i elapsed sleeps : Nat),
      elapsed ≤ DATABRICKS_JOBNAME_TIMEOUT_S →
      DATABRICKS_JOBNAME_TIMEOUT_S - elapsed < fuel →
      runLoop chain (fun _ => 0) true fuel i elapsed sleeps =
        ⟨none, i + (DATABRICKS_JOBNAME_TIMEOUT_S - elapsed),
          sleeps + (DATABRICKS_JOBNAME_TIMEOUT_S - elapsed),
          DATABRICKS_JOBNAME_TIMEOUT_S⟩ := by
  intro fuel
  induction fuel with
  | zero => intro i elapsed sleeps h1 h2; omega
  | succ f ih =>
    intro i elapsed sleeps h1 h2
    by_cases hlt : elapsed < DATABRICKS_JOBNAME_TIMEOUT_S
    · rw [runLoop_succ, if_pos hlt, h i]
      show runLoop chain (fun _ => 0) true f (i + 1) (elapsed + 1) (sleeps + 1) = _
      rw [ih (i + 1) (elapsed + 1) (sleeps + 1) (by omega) (by omega)]
      have e1 : i + 1 + (DATABRICKS_JOBNAME_TIMEOUT_S - (elapsed + 1)) =
          i + (DATABRICKS_JOBNAME_TIMEOUT_S - elapsed) := by omega
      have e2 : sleeps + 1 + (DATABRICKS_JOBNAME_TIMEOUT_S - (elapsed + 1)) =
          sleeps + (DATABRICKS_JOBNAME_TIMEOUT_S - elapsed) := by omega
      rw [e1, e2]
    · have he : elapsed = DATABRICKS_JOBNAME_TIMEOUT_S := by omega
      rw [runLoop_succ, if_neg hlt, he]
      simp

/-- Claim C1: `extract_relevant_metadata` always returns a mapping or
`None` and never propagates an exception of the per-attempt chain: both a
`DatabricksJobNameDiscoverException` and any other exception raised during
an attempt (here, the first attempt after `i` not-ready polls) are caught
and turned into a `None` return. -/
theorem extract_relevant_metadata_never_raises
    (chain : Nat → Except AttemptExn (Option Dict)) (dur : Nat → Nat)
    (enable_retries : Bool) (e : AttemptExn) (i : Nat)
    (hi : i < DATABRICKS_JOBNAME_TIMEOUT_S)
    (h : ∀ j, j < i → chain j = .ok none)
    (he : chain i = .error e) :
    ((extract_relevant_metadata chain dur enable_retries).result = none ∨
      ∃ d, (extract_relevant_metadata chain dur enable_retries).result = some d) ∧
    (extract_relevant_metadata chain (fun _ => 0) true).result = none := by
  constructor
  · cases (extract_relevant_metadata chain dur enable_retries).result with
    | none => exact Or.inl rfl
    | some d => exact Or.inr ⟨d, rfl⟩
  · unfold extract_relevant_metadata
    apply runLoop_skips_notReady chain e i (DATABRICKS_JOBNAME_TIMEOUT_S + 1) 0 0 0
    · intro j hj
      have := h j hj
      rwa [Nat.zero_add]
    · rwa [Nat.zero_add]
    · rwa [Nat.zero_add]
    · omega

/-- Witness for C1: a chain whose very first attempt raises a generic
exception yields a `None` result. -/
theorem extract_relevant_metadata_never_raises_witness :
    (extract_relevant_metadata (fun j => if j = 0 then .error .generic else .ok none)
      (fun _ => 0) true).result = none :=
  (extract_relevant_metadata_never_raises
    (fun j => if j = 0 then .error .generic else .ok none) (fun _ => 0) true
    .generic 0 (by rw [timeout_eq]; omega)
    (fun j hj => absurd hj (Nat.not_lt_zero j)) rfl).2

/-- Claim C5: with retries enabled and every attempt not-ready (e.g. the
application list empty on every poll), the orchestrator makes an attempt
and a 1-second sleep each second, and returns `None` exactly when the
120-second deadline is reached, without raising. -/
theorem retry_loop_times_out (chain : Nat → Except AttemptExn (Option Dict))
    (h : ∀ i, chain i = .ok none) :
    extract_relevant_metadata chain (fun _ => 0) true = ⟨none, 120, 120, 120⟩ := by
  unfold extract_relevant_metadata
  rw [runLoop_all_notReady chain h (DATABRICKS_JOBNAME_TIMEOUT_S + 1) 0 0 0 (by omega) (by omega)]
  rw [timeout_eq]

/-- Witness for C5 at the constant not-ready chain. -/
theorem retry_loop_times_out_witness :
    extract_relevant_metadata (fun _ => .ok none) (fun _ => 0) true =
      ⟨none, 120, 120, 120⟩ :=
  retry_loop_times_out (fun _ => .ok none) (fun _ => rfl)

/-- Claim C8 (amended): with `enable_retries = False` the orchestrator runs
the chain exactly once and never loops, but the loop body completes before
the `break` is reached, so a not-ready outcome still incurs one 1-second
sleep; success and failure outcomes return without sleeping. -/
theorem single_attempt_one_run (chain : Nat → Except AttemptExn (Option Dict))
    (dur : Nat → Nat) :
    (extract_relevant_metadata chain dur false).attempts = 1 ∧
    (extract_relevant_metadata chain dur false).result =
      (match chain 0 with
       | .ok r => if truthyDict r then r else none
       | .error _ => none) ∧
    (extract_relevant_metadata chain dur false).sleeps =
      (match chain 0 with
       | .ok r => if truthyDict r then 0 else 1
       | .error _ => 0) := by
  unfold extract_relevant_metadata
  rw [runLoop_succ, if_pos (by rw [timeout_eq]; omega)]
  cases hc : chain 0 with
  | error e => simp
  | ok r =>
    by_cases ht : truthyDict r = true
    · simp [ht]
    · rw [Bool.not_eq_true] at ht
      simp [ht]

/-- Counterexample for C8 as stated: in single-attempt mode a not-ready
attempt still sleeps once (`time.sleep` runs before the `break`), so
"without ever sleeping" is false. -/
theorem single_attempt_sleeps_once :
    (extract_relevant_metadata (fun _ => .ok none) (fun _ => 0) false).sleeps = 1 ∧
    (extract_relevant_metadata (fun _ => .ok none) (fun _ => 0) false).attempts = 1 := by
  constructor <;> rfl

/-- Claim C10: an HTTP error status (4xx/5xx) makes `raise_for_status`
raise `HTTPError`, which `_spark_apps_json` catches as a
`RequestException` and maps to the not-ready signal `None`, like a
connection failure. -/
theorem http_error_status_retries (r : HttpResponse)
    (h1 : 400 ≤ r.statusCode) (h2 : r.statusCode ≤ 599) :
    request_get (.response r) = .error (.httpError r.statusCode) ∧
    spark_apps_json (.response r) = .ok none := by
  have hc : 400 ≤ r.statusCode ∧ r.statusCode < 600 := ⟨h1, by omega⟩
  have hreq : request_get (.response r) = .error (.httpError r.statusCode) := by
    show (if 400 ≤ r.statusCode ∧ r.statusCode < 600 then
        Except.error (ReqException.httpError r.statusCode) else Except.ok r) = _
    rw [if_pos hc]
  refine ⟨hreq, ?_⟩
  unfold spark_apps_json
  rw [hreq]

/-- Witness for C10 at a concrete 503 response. -/
theorem http_error_status_retries_witness :
    request_get (.response ⟨503, "Service Unavailable", none⟩) = .error (.httpError 503) ∧
    spark_apps_json (.response ⟨503, "Service Unavailable", none⟩) = .ok none :=
  http_error_status_retries ⟨503, "Service Unavailable", none⟩ (by decide) (by decide)

/-- Claim C2: extraction precedence of `_cluster_all_tags_metadata` (the
extraction stage, before value normalization): an unredacted all-tags
property is parsed as a JSON array of key/value records and its pairs form
the base result (parse failure is terminal); otherwise a present
cluster-name property yields the single `ClusterName` entry; otherwise a
terminal failure is raised.  In every success the whitelisted, unredacted
properties of `spark_properties` are copied on top under their own keys. -/
theorem cluster_tags_extraction_precedence
    (parse : String → Option (List (String × String)))
    (pairs : List (String × String)) :
    (∀ v tags, dget (pyDict pairs) CLUSTER_USAGE_ALL_TAGS_PROP = some v →
        strContains v DATABRICKS_REDACTED_STR = false →
        parse v = some tags →
        ∃ r, extractTags parse pairs = .ok r ∧
          ∀ k, dget r k =
            if wlHit (pyDict pairs) k then dget (pyDict pairs) k
            else lookupLast tags k)
    ∧ (∀ w, (dget (pyDict pairs) CLUSTER_USAGE_ALL_TAGS_PROP = none ∨
          ∃ v, dget (pyDict pairs) CLUSTER_USAGE_ALL_TAGS_PROP = some v ∧
            strContains v DATABRICKS_REDACTED_STR = true) →
        dget (pyDict pairs) CLUSTER_USAGE_CLUSTER_NAME_PROP = some w →
        ∃ r, extractTags parse pairs = .ok r ∧
          ∀ k, dget r k =
            if wlHit (pyDict pairs) k then dget (pyDict pairs) k
            else if k = CLUSTER_NAME_KEY then some w else none)
    ∧ (∀ v, dget (pyDict pairs) CLUSTER_USAGE_ALL_TAGS_PROP = some v →
        strContains v DATABRICKS_REDACTED_STR = false →
        parse v = none →
        ∃ msg, extractTags parse pairs = .error msg)
    ∧ ((dget (pyDict pairs) CLUSTER_USAGE_ALL_TAGS_PROP = none ∨
          ∃ v, dget (pyDict pairs) CLUSTER_USAGE_ALL_TAGS_PROP = some v ∧
            strContains v DATABRICKS_REDACTED_STR = true) →
        dget (pyDict pairs) CLUSTER_USAGE_CLUSTER_NAME_PROP = none →
        ∃ msg, extractTags parse pairs = .error msg) := by
  refine ⟨?_, ?_, ?_, ?_⟩
  · intro v tags h1 h2 h3
    refine ⟨addWhitelist (pyDict tags) (pyDict pairs), ?_, ?_⟩
    · simp [extractTags, extractNameTags, h1, h2, h3, Except.map]
    · intro k
      rw [dget_addWhitelist (pyDict pairs) (nodup_pyDict pairs) (pyDict tags) k,
        dget_pyDict tags k]
  · intro w hA hcn
    refine ⟨addWhitelist (dinsert [] CLUSTER_NAME_KEY w) (pyDict pairs), ?_, ?_⟩
    · rcases hA with hnone | ⟨v, hv, hred⟩
      · simp [extractTags, extractNameTags, clusterNameFallback, hnone, hcn, Except.map]
      · simp [extractTags, extractNameTags, clusterNameFallback, hv, hred, hcn, Except.map]
    · intro k
      rw [dget_addWhitelist (pyDict pairs) (nodup_pyDict pairs)
        (dinsert [] CLUSTER_NAME_KEY w) k, dget_singleton]
  · intro v h1 h2 h3
    refine ⟨"Failed to parse " ++ v, ?_⟩
    simp [extractTags, extractNameTags, h1, h2, h3, Except.map]
  · intro hA hcn
    refine ⟨"Failed to extract " ++ CLUSTER_USAGE_ALL_TAGS_PROP ++ " or " ++
      CLUSTER_USAGE_CLUSTER_NAME_PROP ++ " from spark_properties", ?_⟩
    rcases hA with hnone | ⟨v, hv, hred⟩
    · simp [extractTags, extractNameTags, clusterNameFallback, hnone, hcn, Except.map]
    · simp [extractTags, extractNameTags, clusterNameFallback, hv, hred, hcn, Except.map]

/-- Witness for C2, branch 1, at a concrete environment. -/
theorem cluster_tags_extraction_precedence_witness :
    ∃ r, extractTags (fun s => if s = "TAGS" then some [("a", "1")] else none)
        [(CLUSTER_USAGE_ALL_TAGS_PROP, "TAGS")] = .ok r ∧
      ∀ k, dget r k =
        if wlHit (pyDict [(CLUSTER_USAGE_ALL_TAGS_PROP, "TAGS")]) k
        then dget (pyDict [(CLUSTER_USAGE_ALL_TAGS_PROP, "TAGS")]) k
        else lookupLast [("a", "1")] k :=
  (cluster_tags_extraction_precedence
    (fun s => if s = "TAGS" then some [("a", "1")] else none)
    [(CLUSTER_USAGE_ALL_TAGS_PROP, "TAGS")]).1 "TAGS" [("a", "1")]
    (by decide) (by decide) (by decide)

/-- Claim C3: `_apply_pattern` rewrites the `RunName` value by replacing
every space with a dash and lowercasing, and the `ClusterName` value by
deleting every `run-<digits>-` match, replacing spaces with dashes, and
lowercasing; "My Job 1" becomes "my-job-1" and "run-123-prod cluster"
becomes "prod-cluster". -/
theorem apply_pattern_normalizes :
    (∀ (m : Dict) (v : String), dget m JOB_NAME_KEY = some v →
        dget (apply_pattern m) JOB_NAME_KEY = some (pyLower (replaceSpaces v)))
    ∧ (∀ (m : Dict) (v : String), dget m CLUSTER_NAME_KEY = some v →
        dget (apply_pattern m) CLUSTER_NAME_KEY =
          some (pyLower (replaceSpaces (stripRunId v))))
    ∧ pyLower (replaceSpaces "My Job 1") = "my-job-1"
    ∧ pyLower (replaceSpaces (stripRunId "run-123-prod cluster")) = "prod-cluster" := by
  refine ⟨?_, ?_, by decide, by decide⟩
  · intro m v hv
    rw [dget_apply_pattern_job, hv]
    rfl
  · intro m v hv
    rw [dget_apply_pattern_cluster, hv]
    rfl

/-- Witness for C3 at the two example values of the specification. -/
theorem apply_pattern_normalizes_witness :
    dget (apply_pattern [(JOB_NAME_KEY, "My Job 1"),
        (CLUSTER_NAME_KEY, "run-123-prod cluster")]) JOB_NAME_KEY = some "my-job-1" ∧
    dget (apply_pattern [(JOB_NAME_KEY, "My Job 1"),
        (CLUSTER_NAME_KEY, "run-123-prod cluster")]) CLUSTER_NAME_KEY =
      some "prod-cluster" := by
  constructor
  · rw [apply_pattern_normalizes.1 _ "My Job 1" (by decide),
      apply_pattern_normalizes.2.2.1]
  · rw [apply_pattern_normalizes.2.1 _ "run-123-prod cluster" (by decide),
      apply_pattern_normalizes.2.2.2]

/-- Claim C4: `get_webui_address` on contents whose every line splits as
`key=value` returns `host:40001` when the host key is present, `None`
(not-ready) when it is absent, and raises a terminal discovery failure
carrying the raw contents when any line is malformed. -/
theorem get_webui_address_spec :
    (∀ (p : String) (ps : List (String × String)) (host : String),
        parsePairs (splitLines p) = some ps →
        dget (pyDict ps) HOST_KEY_NAME = some host →
        get_webui_address p = .ok (some (host ++ ":40001")))
    ∧ (∀ (p : String) (ps : List (String × String)),
        parsePairs (splitLines p) = some ps →
        dget (pyDict ps) HOST_KEY_NAME = none →
        get_webui_address p = .ok none)
    ∧ (∀ p : String, parsePairs (splitLines p) = none →
        get_webui_address p =
          .error ("Failed to get Databricks webui address properties=" ++ p)) := by
  refine ⟨?_, ?_, ?_⟩
  · intro p ps host h1 h2
    simp only [get_webui_address, h1, h2]
    rw [String.append_assoc,
      show (":" ++ Nat.repr DEFAULT_WEBUI_PORT : String) = ":40001" from rfl]
  · intro p ps h1 h2
    simp only [get_webui_address, h1, h2]
  · intro p h1
    simp only [get_webui_address, h1]

/-- Witness for C4 at concrete well-formed, key-missing, and malformed
file contents. -/
theorem get_webui_address_spec_witness :
    get_webui_address "*.sink.ganglia.host=1.2.3.4\nfoo=bar" =
      .ok (some ("1.2.3.4" ++ ":40001")) ∧
    get_webui_address "foo=bar" = .ok none ∧
    get_webui_address "garbage line" =
      .error ("Failed to get Databricks webui address properties=" ++ "garbage line") := by
  refine ⟨?_, ?_, ?_⟩
  · exact get_webui_address_spec.1 _
      [("*.sink.ganglia.host", "1.2.3.4"), ("foo", "bar")] "1.2.3.4" (by decide) (by decide)
  · exact get_webui_address_spec.2.1 _ [("foo", "bar")] (by decide) (by decide)
  · exact get_webui_address_spec.2.2 _ (by decide)

/-- Claim C6 (amended): a successful (hence any non-empty) result implies
the all-tags property was present and unredacted, or the cluster-name
property was present -- the cluster-name fallback performs no redaction
check, so its value may contain the redaction marker. -/
theorem nonempty_result_sources (parse : String → Option (List (String × String)))
    (pairs : List (String × String)) (r : Dict)
    (h : cluster_all_tags_metadata parse pairs = .ok r) :
    (∃ v, dget (pyDict pairs) CLUSTER_USAGE_ALL_TAGS_PROP = some v ∧
        strContains v DATABRICKS_REDACTED_STR = false) ∨
    (∃ w, dget (pyDict pairs) CLUSTER_USAGE_CLUSTER_NAME_PROP = some w) := by
  cases ha : dget (pyDict pairs) CLUSTER_USAGE_ALL_TAGS_PROP with
  | some v =>
    by_cases hr : strContains v DATABRICKS_REDACTED_STR = true
    · right
      cases hcn : dget (pyDict pairs) CLUSTER_USAGE_CLUSTER_NAME_PROP with
      | some w => exact ⟨w, rfl⟩
      | none =>
        exfalso
        simp [cluster_all_tags_metadata, extractTags, extractNameTags,
          clusterNameFallback, ha, hr, hcn, Except.map] at h
    · left
      exact ⟨v, rfl, by rwa [Bool.not_eq_true] at hr⟩
  | none =>
    right
    cases hcn : dget (pyDict pairs) CLUSTER_USAGE_CLUSTER_NAME_PROP with
    | some w => exact ⟨w, rfl⟩
    | none =>
      exfalso
      simp [cluster_all_tags_metadata, extractTags, extractNameTags,
        clusterNameFallback, ha, hcn, Except.map] at h

/-- Witness for C6 (amended) at a concrete successful extraction. -/
theorem nonempty_result_sources_witness :
    (∃ v, dget (pyDict [(CLUSTER_USAGE_ALL_TAGS_PROP, "T")])
        CLUSTER_USAGE_ALL_TAGS_PROP = some v ∧
        strContains v DATABRICKS_REDACTED_STR = false) ∨
    (∃ w, dget (pyDict [(CLUSTER_USAGE_ALL_TAGS_PROP, "T")])
        CLUSTER_USAGE_CLUSTER_NAME_PROP = some w) :=
  nonempty_result_sources (fun s => if s = "T" then some [("a", "1")] else none)
    [(CLUSTER_USAGE_ALL_TAGS_PROP, "T")] [("a", "1")] (by rfl)

/-- Counterexample for C6 as stated: with the all-tags property absent and
a cluster-name value containing the redaction marker, discovery still
returns a non-empty mapping, so "never returned when both are absent or
redacted" is false. -/
theorem nonempty_result_redacted_cluster_name :
    cluster_all_tags_metadata (fun _ => none)
        [(CLUSTER_USAGE_CLUSTER_NAME_PROP, "myredactedcluster")] =
      .ok [(CLUSTER_NAME_KEY, "myredactedcluster")] ∧
    [(CLUSTER_NAME_KEY, "myredactedcluster")] ≠ ([] : Dict) ∧
    dget (pyDict [(CLUSTER_USAGE_CLUSTER_NAME_PROP, "myredactedcluster")])
        CLUSTER_USAGE_ALL_TAGS_PROP = none ∧
    strContains "myredactedcluster" DATABRICKS_REDACTED_STR = true := by
  refine ⟨by rfl, by decide, by decide, by decide⟩

/-- Claim C7 (amended): in every mapping returned by discovery the
`RunName` and `ClusterName` values are space-free and contain no uppercase
letter; values under other keys are copied through unnormalized. -/
theorem name_keys_normalized (parse : String → Option (List (String × String)))
    (pairs : List (String × String)) (r : Dict)
    (h : cluster_all_tags_metadata parse pairs = .ok r) :
    (∀ v, dget r JOB_NAME_KEY = some v → nameSafeB v = true) ∧
    (∀ v, dget r CLUSTER_NAME_KEY = some v → nameSafeB v = true) := by
  obtain ⟨r0, hr0⟩ : ∃ r0, r = apply_pattern r0 := by
    unfold cluster_all_tags_metadata at h
    cases he : extractTags parse pairs with
    | error e => rw [he] at h; simp [Except.map] at h
    | ok r0 =>
      rw [he] at h
      simp [Except.map] at h
      exact ⟨r0, h.symm⟩
  subst hr0
  constructor
  · intro v hv
    rw [dget_apply_pattern_job] at hv
    cases hj : dget r0 JOB_NAME_KEY with
    | none => rw [hj] at hv; simp at hv
    | some u =>
      rw [hj] at hv
      simp at hv
      rw [← hv]
      exact nameSafe_norm u
  · intro v hv
    rw [dget_apply_pattern_cluster] at hv
    cases hj : dget r0 CLUSTER_NAME_KEY with
    | none => rw [hj] at hv; simp at hv
    | some u =>
      rw [hj] at hv
      simp at hv
      rw [← hv]
      exact nameSafe_norm (stripRunId u)

/-- Witness for C7 (amended) at a concrete discovery run. -/
theorem name_keys_normalized_witness : nameSafeB "my-job-1" = true :=
  (name_keys_normalized
    (fun s => if s = "T" then some [("RunName", "My Job 1")] else none)
    [(CLUSTER_USAGE_ALL_TAGS_PROP, "T")] [("RunName", "my-job-1")] (by rfl)).1
    "my-job-1" (by decide)

/-- Counterexample for C7 as stated: a tag from the all-cluster-tags union
that is neither `RunName` nor `ClusterName` is returned with its value
unchanged, here containing a space and an uppercase letter. -/
theorem unnormalized_tag_value :
    cluster_all_tags_metadata (fun s => if s = "TAGS" then some [("a", "X Y")] else none)
        [(CLUSTER_USAGE_ALL_TAGS_PROP, "TAGS")] = .ok [("a", "X Y")] ∧
    nameSafeB "X Y" = false := by
  refine ⟨by rfl, by decide⟩

/-- Claim C9 (amended): `get_name_from_metadata` returns `job-` ++ the
`RunName` value when that key is present with a NON-EMPTY value (Python
truthiness), else the `ClusterName` value when present and non-empty, else
`None`. -/
theorem get_name_from_metadata_spec (m : Dict) :
    (∀ j, dget m JOB_NAME_KEY = some j → j ≠ "" →
        get_name_from_metadata m = some ("job-" ++ j))
    ∧ (∀ c, (dget m JOB_NAME_KEY = none ∨ dget m JOB_NAME_KEY = some "") →
        dget m CLUSTER_NAME_KEY = some c → c ≠ "" →
        get_name_from_metadata m = some c)
    ∧ ((dget m JOB_NAME_KEY = none ∨ dget m JOB_NAME_KEY = some "") →
        (dget m CLUSTER_NAME_KEY = none ∨ dget m CLUSTER_NAME_KEY = some "") →
        get_name_from_metadata m = none) := by
  refine ⟨?_, ?_, ?_⟩
  · intro j h1 h2
    simp [get_name_from_metadata, h1, h2]
  · intro c h1 h2 h3
    rcases h1 with h1 | h1 <;> simp [get_name_from_metadata, h1, h2, h3]
  · intro h1 h2
    rcases h1 with h1 | h1 <;> rcases h2 with h2 | h2 <;>
      simp [get_name_from_metadata, h1, h2]

/-- Witness for C9 (amended). -/
theorem get_name_from_metadata_spec_witness :
    get_name_from_metadata [(JOB_NAME_KEY, "my-job")] = some ("job-" ++ "my-job") :=
  (get_name_from_metadata_spec [(JOB_NAME_KEY, "my-job")]).1 "my-job"
    (by decide) (by decide)

/-- Counterexample for C9 as stated: with `RunName` present but empty, the
claim predicts `job-` ++ "", yet the truthiness test skips it and the
`ClusterName` value is returned instead. -/
theorem get_name_empty_runname :
    dget [(JOB_NAME_KEY, ""), (CLUSTER_NAME_KEY, "c")] JOB_NAME_KEY = some "" ∧
    get_name_from_metadata [(JOB_NAME_KEY, ""), (CLUSTER_NAME_KEY, "c")] = some "c" ∧
    (some "c" : Option String) ≠ some ("job-" ++ "") := by
  refine ⟨by decide, by decide, by decide⟩

end DatabricksClient
